import Mathlib

/-!
Verification of the go-micro echo adapter (src/adapters/echo.go): the error
mapper, the generic dispatcher, and the authentication-context construction.
The Go code is shallowly embedded: Go error values of the taxonomy become an
inductive type, the reflective handler shape becomes a descriptor structure,
and the transport exchange outcome becomes an explicit result type.
-/

namespace GoMicro

/-- A Go runtime value as far as this adapter inspects it: strings, numbers,
a field-to-string map (the validation error map `map[string]string`), or nil. -/
inductive GoValue where
  | null
  | str (s : String)
  | num (n : Int)
  | fieldMap (entries : List (String × String))
deriving DecidableEq, Repr

/-- `micro.ErrorResponse` as used by `mapHttpResponse`: fields Kind, Error,
Details. Modelled from the spec and its use in src/adapters/echo.go (the
`micro` package itself is not under src/): a uniform error body carrying
kind, message and details. -/
structure ErrorResponse where
  kind : String
  error : String
  details : GoValue
deriving DecidableEq, Repr

/-- `schema.ErrorResponse` as used by `Bind`: fields Kind, Message, Errors.
Modelled from the spec and its use in src/adapters/echo.go (the `schema`
package is not under src/). -/
structure SchemaErrorResponse where
  kind : String
  message : String
  errors : GoValue
deriving DecidableEq, Repr

/-- A JSON response body: either an arbitrary payload value, a
`micro.ErrorResponse`, or a `schema.ErrorResponse`. -/
inductive Body where
  | value (v : GoValue)
  | errorResponse (r : ErrorResponse)
  | schemaError (r : SchemaErrorResponse)
deriving DecidableEq, Repr

/-- Go error values the adapter distinguishes: the six taxonomy kinds from
`util/errors` (each carrying Kind, Message, Details), `*echo.HTTPError`
(carrying a code and a message value), and any other error (`fmt.Errorf`
results and unrecognized types), carried with its message string. -/
inductive GoError where
  | functional (kind message : String) (details : GoValue)
  | technical (kind message : String) (details : GoValue)
  | forbidden (kind message : String) (details : GoValue)
  | unauthorized (kind message : String) (details : GoValue)
  | resourceNotFound (kind message : String) (details : GoValue)
  | conflict (kind message : String) (details : GoValue)
  | httpError (code : Nat) (message : Body)
  | basic (msg : String)
deriving DecidableEq, Repr

/-- Result of `mapHttpResponse`: either `c.JSON(status, body)` was called,
or the error was returned unmapped to the transport layer. -/
inductive MapResult where
  | json (status : Nat) (body : Body)
  | unmapped (e : GoError)
deriving DecidableEq, Repr

/-- Embedding of `mapHttpResponse` (src/adapters/echo.go lines 382-430): the
type-switch over the six taxonomy error kinds, then `*echo.HTTPError`, then
the unmapped fallback. -/
def mapHttpResponse : GoError → MapResult
  | .functional k m d => .json 400 (.errorResponse ⟨k, m, d⟩)
  | .technical k m d => .json 500 (.errorResponse ⟨k, m, d⟩)
  | .forbidden k m d => .json 403 (.errorResponse ⟨k, m, d⟩)
  | .unauthorized k m d => .json 401 (.errorResponse ⟨k, m, d⟩)
  | .resourceNotFound k m d => .json 404 (.errorResponse ⟨k, m, d⟩)
  | .conflict k m d => .json 409 (.errorResponse ⟨k, m, d⟩)
  | .httpError code msg => .json code msg
  | .basic m => .unmapped (.basic m)

/-- True exactly when the map result is an unmapped error. -/
def isUnmapped : MapResult → Bool
  | .unmapped _ => true
  | .json _ _ => false

/-- Abstraction of one request exchange as `Bind` observes it: whether the
body binder fails, whether the header binder fails, and the list of
field-name/failed-tag pairs the validator reports (empty means valid). The
actual population of the input struct is delegated to the echo binder and
the validator collaborator, per the spec. -/
structure BindSpec where
  bodyBindError : Option String
  headerBindError : Option String
  validationFailures : List (String × String)
deriving DecidableEq, Repr

/-- Embedding of `Bind` (src/adapters/echo.go lines 26-65): body binding
first, then header binding, then struct validation; each failure
short-circuits with an `echo.NewHTTPError(400, schema.ErrorResponse{...})`.
The validation failure body carries the field-to-tag map. -/
def Bind (b : BindSpec) : Option GoError :=
  match b.bodyBindError with
  | some m =>
    some (.httpError 400 (.schemaError ⟨"input.bindind", "invalid_request_payload", .str m⟩))
  | none =>
    match b.headerBindError with
    | some m =>
      some (.httpError 400 (.schemaError ⟨"input.bindind", "invalid_request_payload", .str m⟩))
    | none =>
      if b.validationFailures = [] then none
      else
        some (.httpError 400
          (.schemaError ⟨"validation", "validation.failed", .fieldMap b.validationFailures⟩))

/-- The reflective kind of the registered handler value: a function or not. -/
inductive ReflectKind where
  | func
  | nonFunc
deriving DecidableEq, Repr

/-- A recovered panic value: either it implements the `error` interface, or
it is some other value. -/
inductive PanicValue where
  | errorVal (e : GoError)
  | nonError (v : GoValue)
deriving DecidableEq, Repr

/-- What the handler does when called: return one value (the payload), return
two values (payload, optional error), return some other arity, or panic with
a value that either is or is not a Go `error`. -/
inductive HandlerOutcome where
  | one (payload : GoValue)
  | two (payload : GoValue) (err : Option GoError)
  | otherArity (n : Nat)
  | panics (v : PanicValue)
deriving DecidableEq, Repr

/-- Descriptor of a registered handler as dispatch inspects it by reflection:
its reflective kind, its parameter count, whether its first parameter is
`micro.Ctx`, and its behaviour when invoked. -/
structure Handler where
  kind : ReflectKind
  numIn : Nat
  firstArgIsCtx : Bool
  returns : HandlerOutcome
deriving DecidableEq, Repr

/-- Observable side effects of one dispatch: whether the request context was
constructed, whether the transactional unit of work was started, and whether
the handler was invoked. -/
structure Effects where
  ctxConstructed : Bool
  txStarted : Bool
  handlerInvoked : Bool
deriving DecidableEq, Repr

/-- No side effect at all. -/
def noEffects : Effects := ⟨false, false, false⟩

/-- Outcome of the dispatch body: a normal return carrying the error value
(none means nil) and the response written via `c.JSON`, if any; or a panic. -/
inductive UnitResult where
  | ret (err : Option GoError) (written : Option (Nat × Body))
  | panicked (v : PanicValue)
deriving DecidableEq, Repr

/-- Embedding of the result interpretation in `handleRequest`
(src/adapters/echo.go lines 360-378): one return value or a two-value return
with nil error is the payload, serialized with `c.JSON(http.StatusOK, ...)`;
a non-nil second value is returned as the error; any other arity is the
fatal `invalid handler return type` error; a panic propagates. -/
def interpretCall : HandlerOutcome → UnitResult
  | .one payload => .ret none (some (200, .value payload))
  | .two payload none => .ret none (some (200, .value payload))
  | .two _ (some e) => .ret (some e) none
  | .otherArity _ => .ret (some (.basic "invalid handler return type")) none
  | .panics v => .panicked v

/-- Modelled from the spec: `micro.Ctx.Tx` (the `micro` package is not under
src/) executes the unit of work with commit-on-success and rollback-on-error
semantics; any error aborts the unit of work and, per the design note on
panic-based internal error propagation caught at the outer boundary, is
propagated by panic to the Router Facade recover block, where it reaches the
Error Mapper. Panics raised inside the unit of work propagate unchanged. -/
def Tx : UnitResult → UnitResult
  | .ret (some e) _ => .panicked (.errorVal e)
  | .ret none w => .ret none w
  | .panicked v => .panicked v

/-- Embedding of `handleRequest` (src/adapters/echo.go lines 312-380): shape
validation first (not a function, zero parameters, more than two parameters,
first parameter not `micro.Ctx`), each rejection returning a `fmt.Errorf`
error before the route context is built; then the context and the
transactional unit of work, which binds the input when the handler takes two
parameters and otherwise invokes the handler directly. The second component
records the observable side effects. -/
def handleRequest (h : Handler) (b : BindSpec) : UnitResult × Effects :=
  if h.kind ≠ ReflectKind.func then
    (.ret (some (.basic "controller method is not a function")) none, noEffects)
  else if h.numIn = 0 then
    (.ret (some (.basic "controller method must have at least one argument (micro.Ctx)")) none,
      noEffects)
  else if 2 < h.numIn then
    (.ret (some (.basic "controller method must have at most two arguments (micro.Ctx, input binding)")) none,
      noEffects)
  else if h.firstArgIsCtx = false then
    (.ret (some (.basic "handler must be a function with the first argument of type micro.Ctx")) none,
      noEffects)
  else if h.numIn = 2 then
    match Bind b with
    | some e => (Tx (.ret (some e) none), ⟨true, true, false⟩)
    | none => (Tx (interpretCall h.returns), ⟨true, true, true⟩)
  else
    (Tx (interpretCall h.returns), ⟨true, true, true⟩)

/-- Outcome of the registered route closure, after the deferred recover: a
JSON response was written; a non-nil error was returned to echo unmapped; a
nil error with nothing written; or the recover block itself panicked because
the recovered value was not an `error` (the `err0.(error)` assertion). -/
inductive RouteResult where
  | response (status : Nat) (body : Body)
  | errToTransport (e : GoError)
  | noWrite
  | repanic (v : GoValue)
deriving DecidableEq, Repr

/-- Embedding of `echoRouterAdapter.request` (src/adapters/echo.go lines
246-255, identically `echoGroupRoute.request` lines 293-305): run
`handleRequest`; a panic is recovered, its value asserted to be an `error`
(re-panicking otherwise) and passed to `mapHttpResponse`. -/
def request (h : Handler) (b : BindSpec) : RouteResult × Effects :=
  match handleRequest h b with
  | (.ret none (some (st, body)), eff) => (.response st body, eff)
  | (.ret none none, eff) => (.noWrite, eff)
  | (.ret (some e) _, eff) => (.errToTransport e, eff)
  | (.panicked (.errorVal e), eff) =>
    (match mapHttpResponse e with
      | .json st body => .response st body
      | .unmapped e2 => .errToTransport e2, eff)
  | (.panicked (.nonError v), eff) => (.repanic v, eff)

/-- True exactly when the route outcome is a written response. -/
def wroteResponse : RouteResult → Bool
  | .response _ _ => true
  | _ => false

/-- C1: for every error value of one of the six taxonomy kinds, the Error
Mapper produces HTTP status 400, 500, 403, 401, 404, 409 respectively, with
a body carrying that error's kind, message and details unchanged. -/
theorem errorMapper_taxonomy_statuses_and_body (k m : String) (d : GoValue) :
    mapHttpResponse (.functional k m d) = .json 400 (.errorResponse ⟨k, m, d⟩) ∧
    mapHttpResponse (.technical k m d) = .json 500 (.errorResponse ⟨k, m, d⟩) ∧
    mapHttpResponse (.forbidden k m d) = .json 403 (.errorResponse ⟨k, m, d⟩) ∧
    mapHttpResponse (.unauthorized k m d) = .json 401 (.errorResponse ⟨k, m, d⟩) ∧
    mapHttpResponse (.resourceNotFound k m d) = .json 404 (.errorResponse ⟨k, m, d⟩) ∧
    mapHttpResponse (.conflict k m d) = .json 409 (.errorResponse ⟨k, m, d⟩) :=
  ⟨rfl, rfl, rfl, rfl, rfl, rfl⟩

/-- Modelled from the spec: `micro.DefaultTenantId` (the `micro` package is
not under src/), the well-known non-empty default sentinel tenant
identifier. -/
def DefaultTenantId : String := "default"

/-- Modelled from the spec and its use in src/adapters/echo.go:
`micro.Authentication` (the `micro` package is not under src/), the
immutable per-request snapshot of the caller identity. The issuer stands in
for the `Token` metadata the adapter fills; the field `phonerNumber`
follows the source field name `PhonerNumber`. -/
structure Authentication where
  userId : String := ""
  authenticated : Bool := false
  tenantId : String := ""
  tokenIssuer : String := ""
  roles : List String := []
  permissions : List String := []
  name : String := ""
  email : String := ""
  phonerNumber : String := ""
  claims : List (String × GoValue) := []
deriving DecidableEq, Repr

/-- Embedding of the first middleware installed by `NewEchoAdapter`
(src/adapters/echo.go lines 80-93): the unauthenticated Authentication, its
tenant taken from the X-TenantId header or the default sentinel when the
header is empty. -/
def tenantMiddlewareAuth (xTenantId : String) : Authentication :=
  { authenticated := false
    tenantId := if xTenantId = "" then DefaultTenantId else xTenantId }

/-- First-match lookup in a claims association list, the embedding of a
`jwt.MapClaims` map access (keys of a Go map are unique). -/
def lookupClaim (claims : List (String × GoValue)) (key : String) : Option GoValue :=
  match claims with
  | [] => none
  | (k, v) :: rest => if k = key then some v else lookupClaim rest key

/-- The jwt `GetSubject` and `GetIssuer` accessors with the error discarded,
as the adapter calls them: the string claim value, or the empty string when
the claim is absent or not a string. -/
def getStringClaimOrEmpty (claims : List (String × GoValue)) (key : String) : String :=
  match lookupClaim claims key with
  | some (.str s) => s
  | _ => ""

/-- Splitting of a character list at a separator, accumulating the current
segment: the recursion behind `commaSplit`. -/
def splitCharList (sep : Char) : List Char → List Char → List String
  | [], acc => [String.mk acc.reverse]
  | c :: rest, acc =>
    if c = sep then String.mk acc.reverse :: splitCharList sep rest []
    else splitCharList sep rest (c :: acc)

/-- Embedding of the Go `strings.Split(s, ",")` the adapter applies to the
roles, role and permissions claims: every comma separates a segment, and an
empty input yields one empty segment. -/
def commaSplit (s : String) : List String := splitCharList ',' s.toList []

/-- The Go type assertion `value.(string)`: succeeds only on a string. -/
def asString : GoValue → Option String
  | .str s => some s
  | _ => none

/-- One `if value, ok := claims[key]; ok { ... value.(string) ... }` block of
`SuccessHandler`: absent key leaves the context unchanged, a string value
applies the update, a non-string value panics (modelled as `none`). -/
def applyOptClaim (claims : List (String × GoValue)) (key : String)
    (f : String → Authentication → Authentication) (a : Authentication) :
    Option Authentication :=
  match lookupClaim claims key with
  | none => some a
  | some v => (asString v).map (fun s => f s a)

/-- The phone block of `SuccessHandler` (src/adapters/echo.go lines 190-194):
the `phone` claim, or else the `phone_number` claim. -/
def applyPhone (claims : List (String × GoValue)) (a : Authentication) :
    Option Authentication :=
  match lookupClaim claims "phone" with
  | some v => (asString v).map (fun s => { a with phonerNumber := s })
  | none =>
    match lookupClaim claims "phone_number" with
    | some v => (asString v).map (fun s => { a with phonerNumber := s })
    | none => some a

/-- Embedding of `SuccessHandler` (src/adapters/echo.go lines 146-202) on
map claims: subject and issuer extracted with errors discarded, tenant from
the issuer when multi-tenancy is enabled and the issuer is non-empty,
otherwise the default sentinel; then the fixed source-order claim blocks
roles, role, permissions, name, email, phone/phone_number, and finally the
verbatim copy of all claims. `none` models a type-assertion panic. -/
def successHandler (multiTenant : Bool) (claims : List (String × GoValue)) :
    Option Authentication :=
  let sub := getStringClaimOrEmpty claims "sub"
  let issuer := getStringClaimOrEmpty claims "iss"
  let tenantId := if multiTenant ∧ issuer ≠ "" then issuer else DefaultTenantId
  let base : Authentication :=
    { userId := sub, authenticated := true, tenantId := tenantId, tokenIssuer := issuer }
  (applyOptClaim claims "roles" (fun s a => { a with roles := commaSplit s }) base).bind
    (fun a1 =>
      (applyOptClaim claims "role" (fun s a => { a with roles := commaSplit s }) a1).bind
        (fun a2 =>
          (applyOptClaim claims "permissions"
              (fun s a => { a with permissions := commaSplit s }) a2).bind
            (fun a3 =>
              (applyOptClaim claims "name" (fun s a => { a with name := s }) a3).bind
                (fun a4 =>
                  (applyOptClaim claims "email" (fun s a => { a with email := s }) a4).bind
                    (fun a5 =>
                      (applyPhone claims a5).map
                        (fun a6 => { a6 with claims := claims }))))))

/-- A claims lookup in an all-string claims map is absent or a string. -/
theorem lookupClaim_str_of_all_str {claims : List (String × GoValue)}
    (hstr : ∀ p ∈ claims, ∃ s, p.2 = GoValue.str s) (k : String) :
    lookupClaim claims k = none ∨ ∃ s, lookupClaim claims k = some (GoValue.str s) := by
  induction claims with
  | nil => exact Or.inl rfl
  | cons p rest ih =>
    obtain ⟨k0, v0⟩ := p
    obtain ⟨s, hs⟩ := hstr (k0, v0) (List.mem_cons_self _ _)
    by_cases hk : k0 = k
    · right
      exact ⟨s, by simp [lookupClaim, hk, hs.symm, hs]⟩
    · have := ih (fun q hq => hstr q (List.mem_cons_of_mem _ hq))
      simpa [lookupClaim, hk] using this

/-- C2: a handler returning (payload, nil) yields HTTP 200 with the payload
serialized as JSON; a handler returning (nil, err) with err Functional-class
passes the error through the Dispatcher unchanged (it reaches the recover
boundary as that very error) and the response is HTTP 400 with the mapped
error body. -/
theorem dispatch_success_and_functional_error (b : BindSpec) (hb : Bind b = none)
    (p : GoValue) (k m : String) (d : GoValue) :
    (request ⟨.func, 1, true, .two p none⟩ b).1 = .response 200 (.value p) ∧
    (request ⟨.func, 2, true, .two p none⟩ b).1 = .response 200 (.value p) ∧
    (handleRequest ⟨.func, 2, true, .two .null (some (.functional k m d))⟩ b).1
      = .panicked (.errorVal (.functional k m d)) ∧
    (request ⟨.func, 2, true, .two .null (some (.functional k m d))⟩ b).1
      = .response 400 (.errorResponse ⟨k, m, d⟩) := by
  refine ⟨?_, ?_, ?_, ?_⟩ <;>
    simp [request, handleRequest, Tx, interpretCall, hb, mapHttpResponse]

/-- Witness for C2 at a concrete clean exchange and concrete payload/error. -/
theorem dispatch_success_and_functional_error_witness :
    Bind ⟨none, none, []⟩ = none ∧
    (request ⟨.func, 2, true, .two (.str "ok") none⟩ ⟨none, none, []⟩).1
      = .response 200 (.value (.str "ok")) ∧
    (request ⟨.func, 2, true,
        .two .null (some (.functional "account" "insufficient_funds" .null))⟩
        ⟨none, none, []⟩).1
      = .response 400 (.errorResponse ⟨"account", "insufficient_funds", .null⟩) := by
  have h := dispatch_success_and_functional_error ⟨none, none, []⟩ rfl (.str "ok")
    "account" "insufficient_funds" .null
  exact ⟨rfl, h.2.1, h.2.2.2⟩

/-- C3: for every handler of malformed shape (not callable, zero parameters,
more than two parameters, or first parameter not the Request Context type),
dispatch rejects with a fatal internal error before constructing the request
context, before starting the transaction, and before invoking the handler:
the observable side effects are all absent. -/
theorem dispatch_rejects_malformed_shape (h : Handler) (b : BindSpec)
    (hbad : h.kind ≠ ReflectKind.func ∨ h.numIn = 0 ∨ 2 < h.numIn ∨
      h.firstArgIsCtx = false) :
    (handleRequest h b).2 = noEffects ∧
    ∃ msg, (handleRequest h b).1 = .ret (some (.basic msg)) none := by
  unfold handleRequest
  split_ifs with h1 h2 h3 h4 h5 <;>
    first
      | exact ⟨rfl, _, rfl⟩
      | (exfalso; rcases hbad with hb | hb | hb | hb <;> simp_all)

/-- Witness for C3 at a concrete non-callable handler value. -/
theorem dispatch_rejects_malformed_shape_witness :
    (handleRequest ⟨.nonFunc, 1, true, .one .null⟩ ⟨none, none, []⟩).2 = noEffects ∧
    (handleRequest ⟨.nonFunc, 1, true, .one .null⟩ ⟨none, none, []⟩).1
      = .ret (some (.basic "controller method is not a function")) none :=
  ⟨(dispatch_rejects_malformed_shape ⟨.nonFunc, 1, true, .one .null⟩ ⟨none, none, []⟩
      (Or.inl (by decide))).1, rfl⟩

/-- C4: for every valid two-argument handler, when validation reports a
non-empty failure list the handler is never invoked and the response is HTTP
400 whose body carries the mapping from each failed field name to the failed
constraint tag; when binding and validation succeed, the handler is
invoked. -/
theorem dispatch_validation_failure_short_circuits
    (fails : List (String × String)) (hne : fails ≠ []) (out : HandlerOutcome)
    (p : GoValue) :
    (request ⟨.func, 2, true, out⟩ ⟨none, none, fails⟩).2.handlerInvoked = false ∧
    (request ⟨.func, 2, true, out⟩ ⟨none, none, fails⟩).1
      = .response 400 (.schemaError ⟨"validation", "validation.failed", .fieldMap fails⟩) ∧
    (request ⟨.func, 2, true, .two p none⟩ ⟨none, none, []⟩).2.handlerInvoked = true := by
  refine ⟨?_, ?_, ?_⟩ <;>
    simp [request, handleRequest, Bind, Tx, interpretCall, mapHttpResponse, hne]

/-- Witness for C4 at a concrete failing field list. -/
theorem dispatch_validation_failure_short_circuits_witness :
    (request ⟨.func, 2, true, .one .null⟩
        ⟨none, none, [("name", "required")]⟩).2.handlerInvoked = false ∧
    (request ⟨.func, 2, true, .one .null⟩ ⟨none, none, [("name", "required")]⟩).1
      = .response 400
          (.schemaError ⟨"validation", "validation.failed",
            .fieldMap [("name", "required")]⟩) := by
  have h := dispatch_validation_failure_short_circuits [("name", "required")]
    (by decide) (.one .null) .null
  exact ⟨h.1, h.2.1⟩

/-- C7 counterexample: a handler panicking with a value that is not an
`error` (here the plain string boom) does not have its panic value
converted through the Error Mapper; the recover block re-panics and no
response is written, so the claim does not hold for every panic value. -/
theorem panic_nonerror_not_converted_cex :
    (request ⟨.func, 1, true, .panics (.nonError (.str "boom"))⟩ ⟨none, none, []⟩).1
      = .repanic (.str "boom") ∧
    wroteResponse
      (request ⟨.func, 1, true, .panics (.nonError (.str "boom"))⟩ ⟨none, none, []⟩).1
      = false :=
  ⟨rfl, rfl⟩

/-- C7 amended: for every panic raised by the handler whose panic value is an
`error` value, the panic is recovered at the Router Facade boundary and the
value is converted through the Error Mapper; in particular a handler
panicking with a Technical-class error yields HTTP 500 with the mapped
body. -/
theorem panic_error_value_mapped (b : BindSpec) (e : GoError) (k m : String)
    (d : GoValue) :
    (request ⟨.func, 1, true, .panics (.errorVal (.technical k m d))⟩ b).1
      = .response 500 (.errorResponse ⟨k, m, d⟩) ∧
    (request ⟨.func, 1, true, .panics (.errorVal e)⟩ b).1
      = (match mapHttpResponse e with
          | .json st body => .response st body
          | .unmapped e2 => .errToTransport e2) := by
  constructor
  · rfl
  · cases e <;> rfl

/-- C8 counterexample: an `*echo.HTTPError` is not one of the six taxonomy
kinds, yet the Error Mapper does not return it unmapped: it serializes a
JSON response with the HTTPError code and message. -/
theorem httpError_not_returned_unmapped_cex :
    mapHttpResponse (.httpError 418 (.value (.str "teapot")))
      = .json 418 (.value (.str "teapot")) ∧
    isUnmapped (mapHttpResponse (.httpError 418 (.value (.str "teapot")))) = false :=
  ⟨rfl, rfl⟩

/-- C8 amended: every error value that is neither one of the six taxonomy
kinds nor an echo HTTPError is returned unmapped to the transport layer,
while an echo HTTPError is serialized as a JSON response with its own code
and message. -/
theorem errorMapper_fallback_behavior (m : String) (code : Nat) (msg : Body) :
    mapHttpResponse (.basic m) = .unmapped (.basic m) ∧
    mapHttpResponse (.httpError code msg) = .json code msg :=
  ⟨rfl, rfl⟩

/-- C10: for every panic whose value is not of the `error` interface type,
the recovery block's type assertion fails and dispatch produces no mapped
error response: the outcome is a re-panic carrying the original value, for
one-argument and two-argument handlers alike. -/
theorem nonerror_panic_repanics (b : BindSpec) (v : GoValue) :
    (request ⟨.func, 1, true, .panics (.nonError v)⟩ b).1 = .repanic v ∧
    wroteResponse (request ⟨.func, 1, true, .panics (.nonError v)⟩ b).1 = false ∧
    (request ⟨.func, 2, true, .panics (.nonError v)⟩ ⟨none, none, []⟩).1
      = .repanic v :=
  ⟨rfl, rfl, rfl⟩

/-- C6: for every request with no Authorization header the Authentication is
unauthenticated, its tenant is the X-TenantId header when non-empty and the
default sentinel otherwise, and the tenant identifier is never empty. -/
theorem unauthenticated_tenant_resolution (x : String) :
    (tenantMiddlewareAuth x).authenticated = false ∧
    (tenantMiddlewareAuth x).tenantId = (if x = "" then DefaultTenantId else x) ∧
    (tenantMiddlewareAuth x).tenantId ≠ "" := by
  refine ⟨rfl, rfl, ?_⟩
  by_cases hx : x = "" <;> simp [tenantMiddlewareAuth, DefaultTenantId, hx]

/-- C5: for verified string-valued claims with subject s, issuer i and a
comma-separated roles claim (and no role alias), the Authentication has user
identifier s, authenticated true, tenant i exactly when multi-tenancy is
enabled and i is non-empty (default sentinel otherwise), roles the ordered
comma-split of the roles claim, and all claims copied verbatim. -/
theorem successHandler_authenticated_context (mt : Bool)
    (claims : List (String × GoValue)) (s i r : String)
    (hsub : lookupClaim claims "sub" = some (.str s))
    (hiss : lookupClaim claims "iss" = some (.str i))
    (hroles : lookupClaim claims "roles" = some (.str r))
    (hrole : lookupClaim claims "role" = none)
    (hstr : ∀ p ∈ claims, ∃ v, p.2 = GoValue.str v) :
    ∃ a, successHandler mt claims = some a ∧
      a.userId = s ∧ a.authenticated = true ∧
      a.tenantId = (if mt ∧ i ≠ "" then i else DefaultTenantId) ∧
      a.roles = commaSplit r ∧ a.claims = claims := by
  rcases lookupClaim_str_of_all_str hstr "permissions" with hp | ⟨ps, hp⟩ <;>
  rcases lookupClaim_str_of_all_str hstr "name" with hn | ⟨ns, hn⟩ <;>
  rcases lookupClaim_str_of_all_str hstr "email" with he | ⟨es, he⟩ <;>
  rcases lookupClaim_str_of_all_str hstr "phone" with hph | ⟨phs, hph⟩ <;>
  rcases lookupClaim_str_of_all_str hstr "phone_number" with hpn | ⟨pns, hpn⟩ <;>
    simp [successHandler, getStringClaimOrEmpty, applyOptClaim, applyPhone, asString,
      hsub, hiss, hroles, hrole, hp, hn, he, hph, hpn]

/-- Concrete claims map for the C5 witness. -/
def demoClaims : List (String × GoValue) :=
  [("sub", .str "u1"), ("iss", .str "acme.org"), ("roles", .str "admin,editor")]

/-- Witness for C5 at the concrete claims of the spec example. -/
theorem successHandler_authenticated_context_witness :
    ∃ a, successHandler true demoClaims = some a ∧
      a.userId = "u1" ∧ a.authenticated = true ∧
      a.tenantId = "acme.org" ∧
      a.roles = ["admin", "editor"] ∧ a.claims = demoClaims := by
  have h := successHandler_authenticated_context true demoClaims "u1" "acme.org"
    "admin,editor" rfl rfl rfl rfl
    (by intro p hp; fin_cases hp <;> exact ⟨_, rfl⟩)
  have hsplit : commaSplit "admin,editor" = ["admin", "editor"] := by decide
  simpa [hsplit] using h

/-- C9: when string values are present under both the roles and the role
keys, the resulting roles deterministically equal the comma-split of the
role claim, since the role block runs after the roles block in fixed source
order. -/
theorem role_claim_overrides_roles (mt : Bool) (claims : List (String × GoValue))
    (r1 r2 : String)
    (h1 : lookupClaim claims "roles" = some (.str r1))
    (h2 : lookupClaim claims "role" = some (.str r2))
    (hstr : ∀ p ∈ claims, ∃ v, p.2 = GoValue.str v) :
    ∃ a, successHandler mt claims = some a ∧ a.roles = commaSplit r2 := by
  rcases lookupClaim_str_of_all_str hstr "permissions" with hp | ⟨ps, hp⟩ <;>
  rcases lookupClaim_str_of_all_str hstr "name" with hn | ⟨ns, hn⟩ <;>
  rcases lookupClaim_str_of_all_str hstr "email" with he | ⟨es, he⟩ <;>
  rcases lookupClaim_str_of_all_str hstr "phone" with hph | ⟨phs, hph⟩ <;>
  rcases lookupClaim_str_of_all_str hstr "phone_number" with hpn | ⟨pns, hpn⟩ <;>
    simp [successHandler, getStringClaimOrEmpty, applyOptClaim, applyPhone, asString,
      h1, h2, hp, hn, he, hph, hpn]

/-- Concrete claims map with both aliases for the C9 witness. -/
def demoClaimsBoth : List (String × GoValue) :=
  [("roles", .str "a,b"), ("role", .str "c")]

/-- Witness for C9 at a concrete claims map holding both aliases. -/
theorem role_claim_overrides_roles_witness :
    ∃ a, successHandler false demoClaimsBoth = some a ∧ a.roles = ["c"] := by
  have h := role_claim_overrides_roles false demoClaimsBoth "a,b" "c" rfl rfl
    (by intro p hp; fin_cases hp <;> exact ⟨_, rfl⟩)
  have hsplit : commaSplit "c" = ["c"] := by decide
  simpa [hsplit] using h

end GoMicro
